import Mathlib

/-!
Verification of the NHL goal-predictor pipeline
(`projects/nhl-hockey/scripts/daily_predict.py`, `fetch_results.py`,
`update_dashboard.py`).

The scripts are sequential batch transformations over in-memory records, so
they embed shallowly: Python floats are modelled by exact rationals (`ℚ`),
`round(x, d)` by rounding to the nearest multiple of `10⁻ᵈ`, fallible steps
(a `ZeroDivisionError`, a missing upstream record) by `Option`, and Python
dicts by structures carrying the fields the scripts read.
-/

namespace NHLPredict

/-- Python's `round(x, d)` over exact rationals: round to the nearest multiple
of `10⁻ᵈ`.  Ties break upward here while CPython breaks them to even; the two
differ only at exact midpoints, which none of the theorems below depend on. -/
def roundTo (d : Nat) (q : ℚ) : ℚ :=
  (((q * (10 : ℚ) ^ d + 1 / 2).floor : ℤ) : ℚ) / (10 : ℚ) ^ d

/-! ## `daily_predict.py` — feature extraction (`get_player_current_stats`) -/

/-- The `featuredStats.regularSeason.subSeason` record of the player-landing
payload, with the four fields the script reads. -/
structure SubSeason where
  gamesPlayed : Nat
  goals : Nat
  shots : Nat
  points : Nat
deriving DecidableEq

/-- One entry of the `last5Games` list (the script sums `goals` and `points`). -/
structure Last5Game where
  goals : Nat
  points : Nat
deriving DecidableEq

/-- The per-player stats dict built by `get_player_current_stats`. -/
structure PlayerStats where
  games_played : Nat
  season_goals : Nat
  season_shots : Nat
  avg_goals : ℚ
  avg_shots : ℚ
  shooting_pct : ℚ
  last5_goals : Nat
  last5_points : Nat
deriving DecidableEq

/-- `get_player_current_stats` (daily_predict.py lines 95–137): `none` models
every early `return None` (missing `subSeason`, `games_played < 1`); otherwise
the stats dict is built, with `shooting_pct = round(goals / shots, 3) if
shots > 0 else 0` and the analogous guards on the averages. -/
def get_player_current_stats (subSeason : Option SubSeason) (last5 : List Last5Game) :
    Option PlayerStats :=
  match subSeason with
  | none => none
  | some sub =>
    if sub.gamesPlayed < 1 then none
    else
      some
        { games_played := sub.gamesPlayed
          season_goals := sub.goals
          season_shots := sub.shots
          avg_goals :=
            if 0 < sub.gamesPlayed then roundTo 3 ((sub.goals : ℚ) / (sub.gamesPlayed : ℚ)) else 0
          avg_shots :=
            if 0 < sub.gamesPlayed then roundTo 2 ((sub.shots : ℚ) / (sub.gamesPlayed : ℚ)) else 0
          shooting_pct :=
            if 0 < sub.shots then roundTo 3 ((sub.goals : ℚ) / (sub.shots : ℚ)) else 0
          last5_goals := (last5.map Last5Game.goals).sum
          last5_points := (last5.map Last5Game.points).sum }

/-- The roster filter of `get_team_roster_with_stats` (lines 157–166): a player
is appended only `if stats and stats['games_played'] >= 3`. -/
def rosterFilter (stats : Option PlayerStats) : Option PlayerStats :=
  match stats with
  | none => none
  | some s => if 3 ≤ s.games_played then some s else none

/-- Feature extraction for one player as the ranked set sees it: the stats
fetch followed by the roster-level minimum-games filter. -/
def extractPlayer (subSeason : Option SubSeason) (last5 : List Last5Game) :
    Option PlayerStats :=
  rosterFilter (get_player_current_stats subSeason last5)

/-! ## `daily_predict.py` — scoring and normalization (lines 233–258) -/

/-- The raw linear score (lines 235–240):
`avg_goals*0.40 + avg_shots*0.08 + last5_goals*0.05 + shooting_pct*0.15`. -/
def goal_probability_raw (s : PlayerStats) : ℚ :=
  s.avg_goals * (40 / 100) + s.avg_shots * (8 / 100)
    + (s.last5_goals : ℚ) * (5 / 100) + s.shooting_pct * (15 / 100)

/-- Python's `max` over a list: `none` on the empty list (where CPython raises
`ValueError`), otherwise the left fold of binary `max`. -/
def pyMax : List ℚ → Option ℚ
  | [] => none
  | x :: xs => some (xs.foldl max x)

/-- The normalization loop (lines 243–250).  `max_prob` is
`max(raw scores) if all_players else 1`; each player then gets
`round(min(max(raw / max_prob * 0.55, 0.02), 0.60), 3)`.  When the batch is
non-empty and its maximum is `0`, the division `raw / max_prob` raises
`ZeroDivisionError`, modelled as `none`; the empty batch runs the loop zero
times and yields `[]`. -/
def normalizeProbs (raws : List ℚ) : Option (List ℚ) :=
  match pyMax raws with
  | none => some []
  | some m =>
    if m = 0 then none
    else some (raws.map fun r => roundTo 3 (min (max (r / m * (55 / 100)) (2 / 100)) (60 / 100)))

/-- A player entering the sort/rank step: identity, recent-form goals and the
normalized probability. -/
structure ScoredPlayer where
  player_id : Nat
  last5_goals : Nat
  goal_probability : ℚ
deriving DecidableEq

/-- A ranked prediction as emitted by lines 256–258: the player together with
`rank = i + 1` and the hot flag `last5_goals >= 3`. -/
structure RankedPlayer where
  player_id : Nat
  goal_probability : ℚ
  rank : Nat
  is_hot : Bool
deriving DecidableEq

/-- The sort key of line 253: `all_players.sort(key=..., reverse=True)`, a
stable sort placing higher `goal_probability` first. -/
def probDesc (a b : ScoredPlayer) : Bool :=
  decide (b.goal_probability ≤ a.goal_probability)

/-- Lines 252–258: stable-sort the batch by descending normalized probability,
then assign `rank = index + 1` and the hot flag. -/
def rankPlayers (ps : List ScoredPlayer) : List RankedPlayer :=
  (ps.mergeSort probDesc).enum.map fun ip =>
    { player_id := ip.2.player_id
      goal_probability := ip.2.goal_probability
      rank := ip.1 + 1
      is_hot := decide (3 ≤ ip.2.last5_goals) }

/-! ## `fetch_results.py` — daily comparison (lines 184–209) -/

/-- A stored prediction as read back from a snapshot, with the fields the
comparison loop uses. -/
structure Pred where
  player_id : Nat
  rank : Nat
  name : String
  team : String
  goal_probability : ℚ
deriving DecidableEq

/-- One boxscore goal scorer (`get_boxscore_goals` output): identity plus the
goal count, which the comparison ignores. -/
structure GoalScorer where
  player_id : Nat
  name : String
  team : String
  goals : Nat
deriving DecidableEq

/-- One entry of `top3_picks` (the `hits.append({...})` dict of lines 193–199). -/
structure Pick where
  rank : Nat
  name : String
  team : String
  probability : ℚ
  scored : Bool
deriving DecidableEq

/-- The dict appended to `comparison_results` (lines 203–209). -/
structure ModelComparison where
  model : String
  top3_picks : List Pick
  hits : Nat
  total_predictions : Nat
deriving DecidableEq

/-- `set(s['player_id'] for s in all_scorers)` (line 188): the distinct
scoring-player identities. -/
def scorerIdSet (scorers : List GoalScorer) : List Nat :=
  (scorers.map GoalScorer.player_id).dedup

/-- Lines 184–209: take the first three stored predictions, mark each as
`scored` by membership of its identity in the scorer-id set, count the hits in
`hit_count`, and record the fixed `'total_predictions': 3`. -/
def buildComparison (model : String) (preds : List Pred) (scorers : List GoalScorer) :
    ModelComparison :=
  let picks := (preds.take 3).map fun p =>
    { rank := p.rank
      name := p.name
      team := p.team
      probability := p.goal_probability
      scored := decide (p.player_id ∈ scorerIdSet scorers) : Pick }
  { model := model
    top3_picks := picks
    hits := picks.countP Pick.scored
    total_predictions := 3 }

/-! ## `update_dashboard.py` — aggregation (`calculate_model_stats`, lines 67–91) -/

/-- One element of `daily_results`: the dict `{'date': ..., 'hits': ...}` of
lines 78–81. -/
structure DailyEntry where
  date : String
  hits : Nat
deriving DecidableEq

/-- One historical results file: its date and its `model_comparisons` list. -/
structure DayResult where
  date : String
  model_comparisons : List ModelComparison
deriving DecidableEq

/-- The dict returned by `calculate_model_stats` (lines 85–91). -/
structure ModelStats where
  total_days : Nat
  total_hits : Nat
  total_predictions : Nat
  hit_rate : ℚ
  daily_results : List DailyEntry
deriving DecidableEq

/-- The body of the inner loop of `calculate_model_stats` (lines 73–81): on a
matching comparison add its `hits`, add the constant `3` to
`total_predictions`, and append `{'date': ..., 'hits': ...}`. -/
def statsStep (model date : String) (a : Nat × Nat × List DailyEntry)
    (comp : ModelComparison) : Nat × Nat × List DailyEntry :=
  if comp.model = model then (a.1 + comp.hits, a.2.1 + 3, a.2.2 ++ [⟨date, comp.hits⟩])
  else a

/-- The two nested `for` loops of `calculate_model_stats`, accumulating
`(total_hits, total_predictions, daily_results)` from `(0, 0, [])`. -/
def statsFold (model : String) (hist : List DayResult) : Nat × Nat × List DailyEntry :=
  hist.foldl (fun a result => result.model_comparisons.foldl (statsStep model result.date) a)
    (0, 0, [])

/-- Python's `xs[-n:]`: the last `n` elements (all of them when `len(xs) ≤ n`). -/
def lastN (n : Nat) (xs : List α) : List α := xs.drop (xs.length - n)

/-- `calculate_model_stats` (lines 67–91): run the accumulation loops, then
`hit_rate = round(total_hits / total_predictions * 100 if total_predictions > 0
else 0, 1)` and `daily_results[-10:]`. -/
def calculate_model_stats (model : String) (hist : List DayResult) : ModelStats :=
  let a := statsFold model hist
  { total_days := a.2.2.length
    total_hits := a.1
    total_predictions := a.2.1
    hit_rate := roundTo 1 (if 0 < a.2.1 then (a.1 : ℚ) / (a.2.1 : ℚ) * 100 else 0)
    daily_results := lastN 10 a.2.2 }

/-- The group of stored comparisons belonging to one ranking source, tagged
with the date of the results file each came from, in chronological file order
(the order the loops of `calculate_model_stats` visit them). -/
def groupComps (model : String) (hist : List DayResult) : List (String × ModelComparison) :=
  hist.flatMap fun r =>
    (r.model_comparisons.filter fun c => decide (c.model = model)).map fun c => (r.date, c)

/-! ## Helper lemmas -/

/-- `Rat.floor` agrees with the `FloorRing` floor. -/
theorem ratFloor_eq (q : ℚ) : (q.floor : ℤ) = ⌊q⌋ := by
  rw [Rat.floor_def', Rat.floor_def]

/-- `roundTo` through the `FloorRing` floor, the form `norm_num` evaluates. -/
theorem roundTo_eq (d : Nat) (q : ℚ) :
    roundTo d q = ((⌊q * (10 : ℚ) ^ d + 1 / 2⌋ : ℤ) : ℚ) / (10 : ℚ) ^ d := by
  rw [roundTo, ratFloor_eq]

/-- Rounding to a fixed number of decimals is monotone. -/
theorem roundTo_mono (d : Nat) {a b : ℚ} (h : a ≤ b) : roundTo d a ≤ roundTo d b := by
  rw [roundTo_eq, roundTo_eq]
  have hp : (0 : ℚ) < 10 ^ d := by positivity
  refine div_le_div_of_nonneg_right ?_ hp.le
  exact_mod_cast Int.floor_mono (by nlinarith)

/-- The left fold of binary `max` is an element of the folded list. -/
theorem foldl_max_mem (x : ℚ) (xs : List ℚ) : xs.foldl max x ∈ x :: xs := by
  induction xs generalizing x with
  | nil => simp
  | cons y ys ih =>
    rw [List.foldl_cons]
    rcases max_choice x y with hm | hm <;>
      rcases List.mem_cons.mp (ih (max x y)) with h | h <;>
      simp [List.mem_cons, h, hm] at * <;> tauto

/-- Every element of the folded list is bounded by the left fold of `max`. -/
theorem le_foldl_max (x : ℚ) (xs : List ℚ) : ∀ r ∈ x :: xs, r ≤ xs.foldl max x := by
  induction xs generalizing x with
  | nil =>
    intro r hr
    rcases List.mem_cons.mp hr with rfl | h
    · simp
    · exact absurd h (List.not_mem_nil r)
  | cons y ys ih =>
    intro r hr
    rw [List.foldl_cons]
    rcases List.mem_cons.mp hr with rfl | h
    · exact le_trans (le_max_left r y) (ih (max r y) _ (List.mem_cons_self _ _))
    · rcases List.mem_cons.mp h with rfl | h2
      · exact le_trans (le_max_right x r) (ih (max x r) _ (List.mem_cons_self _ _))
      · exact ih (max x y) r (List.mem_cons_of_mem _ h2)

/-- One pass of the inner comparison loop, expressed through `filter`. -/
theorem foldl_statsStep (model date : String) (cs : List ModelComparison)
    (a : Nat × Nat × List DailyEntry) :
    cs.foldl (statsStep model date) a
      = (a.1 + (((cs.filter fun c => decide (c.model = model)).map fun c => c.hits).sum),
         a.2.1 + 3 * (cs.filter fun c => decide (c.model = model)).length,
         a.2.2 ++ (cs.filter fun c => decide (c.model = model)).map fun c => ⟨date, c.hits⟩) := by
  induction cs generalizing a with
  | nil => simp
  | cons c cs ih =>
    rw [List.foldl_cons, ih, List.filter_cons]
    by_cases hc : c.model = model
    · have hstep : statsStep model date a c = (a.1 + c.hits, a.2.1 + 3, a.2.2 ++ [⟨date, c.hits⟩]) := by
        simp [statsStep, hc]
      rw [hstep, if_pos (by simp [hc])]
      simp only [List.map_cons, List.sum_cons, List.length_cons, Prod.mk.injEq]
      refine ⟨by omega, by omega, by simp⟩
    · have hstep : statsStep model date a c = a := by simp [statsStep, hc]
      rw [hstep, if_neg (by simp [hc])]

/-- The accumulation loops of `calculate_model_stats` compute, in one pass, the
hit sum, three opportunities per matching comparison, and the per-day results
of the source's group. -/
theorem statsFold_eq (model : String) (hist : List DayResult) :
    statsFold model hist
      = (((groupComps model hist).map fun p => p.2.hits).sum,
         3 * (groupComps model hist).length,
         (groupComps model hist).map fun p => ⟨p.1, p.2.hits⟩) := by
  suffices h : ∀ (hs : List DayResult) (a : Nat × Nat × List DailyEntry),
      hs.foldl (fun a result => result.model_comparisons.foldl (statsStep model result.date) a) a
        = (a.1 + ((groupComps model hs).map fun p => p.2.hits).sum,
           a.2.1 + 3 * (groupComps model hs).length,
           a.2.2 ++ ((groupComps model hs).map fun p => ⟨p.1, p.2.hits⟩)) by
    rw [statsFold, h]; simp
  intro hs
  induction hs with
  | nil => intro a; simp [groupComps]
  | cons r rs ih =>
    intro a
    rw [List.foldl_cons, foldl_statsStep, ih]
    simp only [groupComps, List.flatMap_cons, List.map_append, List.sum_append,
      List.length_append, List.length_map, List.append_assoc, List.map_map,
      Function.comp_def, Prod.mk.injEq]
    refine ⟨by omega, by omega, by simp⟩

/-! ## Claims about the scorer's normalization (C1, C2, C9) -/

/-- Claim C1, counterexample: a roster-eligible player with three games and no
goals or shots has raw score `0`, and normalizing the non-empty batch holding
just that score fails with a `ZeroDivisionError` (`none`); it is not the soft
all-zero result the claim describes. -/
theorem normalization_zero_max_is_fatal :
    (extractPlayer (some ⟨3, 0, 0, 0⟩) []).map goal_probability_raw = some 0
      ∧ normalizeProbs [0] = none := by
  constructor
  · norm_num [extractPlayer, get_player_current_stats, rosterFilter, goal_probability_raw,
      roundTo_eq]
  · norm_num [normalizeProbs, pyMax]

/-- Claim C1 as amended: when the batch is non-empty and its maximum raw score
is `0`, the normalization step fails with a division by zero; the
`max(...) if all_players else 1` guard protects only the empty batch. -/
theorem normalize_none_of_max_zero (raws : List ℚ) (h : pyMax raws = some 0) :
    normalizeProbs raws = none := by
  unfold normalizeProbs
  rw [h]
  simp

/-- Witness for the amended C1 at the concrete batch `[0, 0]`. -/
theorem normalize_none_of_max_zero_witness :
    pyMax [0, 0] = some 0 ∧ normalizeProbs [0, 0] = none :=
  ⟨by norm_num [pyMax], normalize_none_of_max_zero [0, 0] (by norm_num [pyMax])⟩

/-- Claim C2: every normalized score the scorer produces lies in the closed
interval `[0.02, 0.60]` — each raw score is scaled by the batch maximum and the
ceiling `0.55`, clamped into `[0.02, 0.60]`, and rounding to three decimals
keeps it there. -/
theorem normalized_scores_in_range (raws out : List ℚ)
    (h : normalizeProbs raws = some out) :
    ∀ q ∈ out, 2 / 100 ≤ q ∧ q ≤ 60 / 100 := by
  intro q hq
  cases raws with
  | nil =>
    simp only [normalizeProbs, pyMax, Option.some.injEq] at h
    subst h
    exact absurd hq (List.not_mem_nil q)
  | cons x xs =>
    simp only [normalizeProbs, pyMax] at h
    by_cases hm : xs.foldl max x = 0
    · rw [if_pos hm] at h
      exact absurd h (by simp)
    · rw [if_neg hm] at h
      injection h with h
      subst h
      obtain ⟨r, _, rfl⟩ := List.mem_map.mp hq
      constructor
      · have h1 : 2 / 100 ≤ min (max (r / (xs.foldl max x) * (55 / 100)) (2 / 100)) (60 / 100) :=
          le_min (le_max_right _ _) (by norm_num)
        calc (2 : ℚ) / 100 = roundTo 3 (2 / 100) := by rw [roundTo_eq]; norm_num
          _ ≤ _ := roundTo_mono 3 h1
      · have h2 : min (max (r / (xs.foldl max x) * (55 / 100)) (2 / 100)) (60 / 100) ≤ 60 / 100 :=
          min_le_right _ _
        calc roundTo 3 _ ≤ roundTo 3 (60 / 100) := roundTo_mono 3 h2
          _ = 60 / 100 := by rw [roundTo_eq]; norm_num

/-- Witness for C2: the batch `[1/4, 1/2]` normalizes to `[0.275, 0.55]`, and
the score `0.55` is inside `[0.02, 0.60]`. -/
theorem normalized_scores_in_range_witness :
    (2 : ℚ) / 100 ≤ 11 / 20 ∧ (11 : ℚ) / 20 ≤ 60 / 100 :=
  normalized_scores_in_range [1 / 4, 1 / 2] [11 / 40, 11 / 20]
    (by norm_num [normalizeProbs, pyMax, roundTo_eq]) (11 / 20) (by simp)

/-- Claim C9: in a batch whose maximum raw score is strictly positive, the
player holding that maximum is normalized to exactly the ceiling factor
`0.55`, whatever the underlying stats. -/
theorem max_scorer_gets_ceiling (raws out : List ℚ) (i : Nat)
    (h : normalizeProbs raws = some out) (hi : i < raws.length) (hi2 : i < out.length)
    (hmax : ∀ r ∈ raws, r ≤ raws[i]) (hpos : 0 < raws[i]) :
    out[i] = 55 / 100 := by
  cases raws with
  | nil => exact absurd hi (by simp)
  | cons x xs =>
    simp only [normalizeProbs, pyMax] at h
    by_cases hm : xs.foldl max x = 0
    · rw [if_pos hm] at h
      exact absurd h (by simp)
    · rw [if_neg hm] at h
      injection h with h
      subst h
      have hup : xs.foldl max x ≤ (x :: xs)[i] := hmax _ (foldl_max_mem x xs)
      have hdown : (x :: xs)[i] ≤ xs.foldl max x := le_foldl_max x xs _ (List.getElem_mem hi)
      have hEq : xs.foldl max x = (x :: xs)[i] := le_antisymm hup hdown
      rw [List.getElem_map, ← hEq, div_self hm, one_mul,
        max_eq_left (by norm_num), min_eq_left (by norm_num), roundTo_eq]
      norm_num

/-- Witness for C9: in the batch `[1/4, 1/2]` the second player holds the
positive maximum and is normalized to exactly `0.55`. -/
theorem max_scorer_gets_ceiling_witness :
    normalizeProbs [1 / 4, 1 / 2] = some [11 / 40, 11 / 20]
      ∧ ([(11 : ℚ) / 40, 11 / 20].get ⟨1, by decide⟩) = 55 / 100 := by
  refine ⟨by norm_num [normalizeProbs, pyMax, roundTo_eq], ?_⟩
  refine max_scorer_gets_ceiling [1 / 4, 1 / 2] [11 / 40, 11 / 20] 1
    (by norm_num [normalizeProbs, pyMax, roundTo_eq]) (by decide) (by decide) ?_ ?_
  · intro r hr
    show r ≤ 1 / 2
    rcases List.mem_cons.mp hr with rfl | h2
    · norm_num
    · rcases List.mem_cons.mp h2 with rfl | h3
      · norm_num
      · exact absurd h3 (List.not_mem_nil r)
  · show (0 : ℚ) < 1 / 2
    norm_num

/-! ## Claims about ranking and feature extraction (C3, C4, C5) -/

/-- Claim C3: ranking a batch of `n` scored players yields exactly `n`
predictions — a permutation of the inputs — whose rank values are exactly
`1, …, n` in order, with the normalized scores in descending order along the
ranking. -/
theorem rank_values_contiguous (ps : List ScoredPlayer) :
    (rankPlayers ps).length = ps.length
    ∧ (rankPlayers ps).map RankedPlayer.rank = List.range' 1 ps.length
    ∧ ((rankPlayers ps).map fun r => (r.player_id, r.goal_probability)).Perm
        (ps.map fun p => (p.player_id, p.goal_probability))
    ∧ ((rankPlayers ps).map RankedPlayer.goal_probability).Pairwise (· ≥ ·) := by
  have hlen : (ps.mergeSort probDesc).length = ps.length := List.length_mergeSort ps
  refine ⟨?_, ?_, ?_, ?_⟩
  · rw [rankPlayers, List.length_map, List.enum_length, hlen]
  · have h1 : (rankPlayers ps).map RankedPlayer.rank
        = (ps.mergeSort probDesc).enum.map fun ip => ip.1 + 1 := by
      simp [rankPlayers, List.map_map, Function.comp_def]
    rw [h1]
    have h2 : List.range' 1 ps.length
        = List.map (fun i => i + 1) ((ps.mergeSort probDesc).enum.map Prod.fst) := by
      rw [List.enum_map_fst, hlen, List.range'_eq_map_range]
      exact (List.map_congr_left fun a _ => Nat.add_comm 1 a)
    rw [h2, List.map_map]
    rfl
  · have h1 : ((rankPlayers ps).map fun r => (r.player_id, r.goal_probability))
        = (ps.mergeSort probDesc).map fun p => (p.player_id, p.goal_probability) := by
      conv_rhs => rw [← List.enum_map_snd (ps.mergeSort probDesc)]
      rw [List.map_map]
      simp [rankPlayers, List.map_map, Function.comp_def]
    rw [h1]
    exact (List.mergeSort_perm ps probDesc).map _
  · have h1 : ((rankPlayers ps).map RankedPlayer.goal_probability)
        = (ps.mergeSort probDesc).map ScoredPlayer.goal_probability := by
      conv_rhs => rw [← List.enum_map_snd (ps.mergeSort probDesc)]
      rw [List.map_map]
      simp [rankPlayers, List.map_map, Function.comp_def]
    rw [h1, List.pairwise_map]
    have hs : (ps.mergeSort probDesc).Pairwise fun a b => probDesc a b = true :=
      List.sorted_mergeSort
        (fun a b c hab hbc => by
          simp only [probDesc, decide_eq_true_eq] at *
          exact le_trans hbc hab)
        (fun a b => by simp [probDesc, le_total])
        ps
    exact hs.imp fun hab => by simpa [probDesc, ge_iff_le, decide_eq_true_eq] using hab

/-- Claim C4, counterexample: for a 3-game player with 2 goals on 0 shots the
code stores shooting percentage `0`, not the claim's
`round(goals / max(shots, 1), 3) = 2`. -/
theorem shooting_pct_zero_shots_cex :
    ¬ ((get_player_current_stats (some ⟨3, 2, 0, 2⟩) []).map PlayerStats.shooting_pct
        = some (roundTo 3 ((2 : ℚ) / ((max 0 1 : Nat) : ℚ)))) := by
  norm_num [get_player_current_stats, roundTo_eq]

/-- Claim C4 as amended: the stored shooting percentage is
`round(goals / shots, 3)` when the player has at least one shot, and the
constant `0` when the player has zero shots — zero-shot players with goals get
`0`, not `goals / 1` and not a divide error. -/
theorem shooting_pct_formula (sub : SubSeason) (l5 : List Last5Game) (s : PlayerStats)
    (h : get_player_current_stats (some sub) l5 = some s) :
    s.shooting_pct
      = if 0 < sub.shots then roundTo 3 ((sub.goals : ℚ) / (sub.shots : ℚ)) else 0 := by
  simp only [get_player_current_stats] at h
  by_cases hg : sub.gamesPlayed < 1
  · rw [if_pos hg] at h
    exact absurd h (by simp)
  · rw [if_neg hg] at h
    injection h with h
    subst h
    rfl

/-- Witness for the amended C4: a five-game player with one goal and zero
shots gets shooting percentage `0` through the zero-shot branch. -/
theorem shooting_pct_formula_witness :
    (⟨5, 1, 0, 1 / 5, 0, 0, 0, 0⟩ : PlayerStats).shooting_pct
      = if 0 < (⟨5, 1, 0, 2⟩ : SubSeason).shots
        then roundTo 3 (((⟨5, 1, 0, 2⟩ : SubSeason).goals : ℚ) / ((⟨5, 1, 0, 2⟩ : SubSeason).shots : ℚ))
        else 0 :=
  shooting_pct_formula ⟨5, 1, 0, 2⟩ [] _
    (by norm_num [get_player_current_stats, roundTo_eq])

/-- Claim C5: a player whose season record is present enters the ranked set
exactly when it shows at least `3` games played — `get_player_current_stats`
rejects below `1` game and the roster filter rejects below `3`, so exactly two
games yield `absent` while exactly three yield a populated feature set. -/
theorem extract_requires_three_games (sub : SubSeason) (l5 : List Last5Game) :
    (extractPlayer (some sub) l5).isSome = true ↔ 3 ≤ sub.gamesPlayed := by
  simp only [extractPlayer, get_player_current_stats, rosterFilter]
  by_cases hg : sub.gamesPlayed < 1
  · rw [if_pos hg]
    simp
    omega
  · rw [if_neg hg]
    by_cases h3 : 3 ≤ sub.gamesPlayed
    · simp [h3]
    · simp [h3]

/-! ## Claim about the daily comparison (C7) -/

/-- Claim C7: the comparison takes the first three predictions in stored
(rank-ascending) order, marks each scored exactly when its identity is among
the distinct scoring identities (goal counts ignored), counts hits as the
number of scored picks, and an empty predictions list soft-fails to a
comparison with no picks and zero hits. -/
theorem comparison_marks_hits (model : String) (preds : List Pred)
    (scorers : List GoalScorer) :
    (buildComparison model preds scorers).top3_picks.length = min 3 preds.length
    ∧ (∀ (i : Nat) (h1 : i < (buildComparison model preds scorers).top3_picks.length)
        (h2 : i < preds.length),
        (((buildComparison model preds scorers).top3_picks.get ⟨i, h1⟩).scored = true
            ↔ (preds.get ⟨i, h2⟩).player_id ∈ scorerIdSet scorers)
          ∧ ((buildComparison model preds scorers).top3_picks.get ⟨i, h1⟩).rank
              = (preds.get ⟨i, h2⟩).rank)
    ∧ (buildComparison model preds scorers).hits
        = ((buildComparison model preds scorers).top3_picks.filter Pick.scored).length
    ∧ (preds = [] →
        (buildComparison model preds scorers).top3_picks = []
          ∧ (buildComparison model preds scorers).hits = 0) := by
  refine ⟨?_, ?_, ?_, ?_⟩
  · simp [buildComparison]
  · intro i h1 h2
    have h3 : i < ((preds.take 3).map fun p =>
        ({ rank := p.rank, name := p.name, team := p.team, probability := p.goal_probability,
           scored := decide (p.player_id ∈ scorerIdSet scorers) } : Pick)).length := h1
    constructor
    · show (((preds.take 3).map _).get ⟨i, h3⟩).scored = true ↔ _
      rw [List.get_eq_getElem, List.getElem_map, List.getElem_take]
      simp
    · show (((preds.take 3).map _).get ⟨i, h3⟩).rank = _
      rw [List.get_eq_getElem, List.getElem_map, List.getElem_take]
      rfl
  · show ((preds.take 3).map _).countP Pick.scored = _
    rw [List.countP_eq_length_filter]
    rfl
  · intro h
    subst h
    simp [buildComparison]

/-- Witness for C7 at a concrete comparison: two stored predictions, one
scorer; the first pick's scored flag agrees with set membership. -/
theorem comparison_marks_hits_witness :
    (((buildComparison "neural_network"
          [⟨8478402, 1, "Connor McDavid", "EDM", 1 / 2⟩, ⟨8477934, 2, "Leon Draisaitl", "EDM", 2 / 5⟩]
          [⟨8478402, "Connor McDavid", "EDM", 2⟩]).top3_picks.get ⟨0, by decide⟩).scored = true
        ↔ (([⟨8478402, 1, "Connor McDavid", "EDM", 1 / 2⟩,
             ⟨8477934, 2, "Leon Draisaitl", "EDM", 2 / 5⟩] : List Pred).get ⟨0, by decide⟩).player_id
            ∈ scorerIdSet [⟨8478402, "Connor McDavid", "EDM", 2⟩]) :=
  ((comparison_marks_hits "neural_network"
      [⟨8478402, 1, "Connor McDavid", "EDM", 1 / 2⟩, ⟨8477934, 2, "Leon Draisaitl", "EDM", 2 / 5⟩]
      [⟨8478402, "Connor McDavid", "EDM", 2⟩]).2.1 0 (by decide) (by decide)).1

/-! ## Claims about the aggregation (C6, C8, C10) -/

/-- Eleven one-comparison days for the trailing-window counterexample. -/
def elevenDays : List DayResult :=
  (List.range 11).map fun i =>
    ⟨"2025-01-" ++ toString i, [⟨"neural_network", [], 1, 3⟩]⟩

/-- Claim C6, counterexample: over eleven processed days the trailing
component `daily_results` keeps the last ten entries, so it is not restricted
to the chronologically last seven. -/
theorem trailing_window_not_seven :
    ¬ ((calculate_model_stats "neural_network" elevenDays).daily_results.length ≤ 7) := by
  decide

/-- Claim C6 as amended: the aggregated statistics carry, as their only
trailing-window component, the chronologically last ten per-day results of the
source's group — each holding just the date and that day's hit count — while
`total_days` still counts the whole group; no windowed hit/opportunity/rate
figures are recomputed. -/
theorem trailing_component_is_last_ten (model : String) (hist : List DayResult) :
    (calculate_model_stats model hist).daily_results
        = lastN 10 ((groupComps model hist).map fun p => ⟨p.1, p.2.hits⟩)
    ∧ (calculate_model_stats model hist).total_days = (groupComps model hist).length := by
  rw [calculate_model_stats, statsFold_eq]
  exact ⟨rfl, by simp⟩

/-- Claim C8: the cumulative hit rate equals the group's hit sum over the
group's total opportunities (expressed in percent, rounded to one decimal as
the code stores it), and is the guard value `0` when there are no
opportunities. -/
theorem cumulative_hit_rate_eq (model : String) (hist : List DayResult) :
    (calculate_model_stats model hist).total_hits
        = ((groupComps model hist).map fun p => p.2.hits).sum
    ∧ (calculate_model_stats model hist).total_predictions
        = 3 * (groupComps model hist).length
    ∧ ((calculate_model_stats model hist).total_predictions = 0 →
        (calculate_model_stats model hist).hit_rate = 0)
    ∧ (0 < (calculate_model_stats model hist).total_predictions →
        (calculate_model_stats model hist).hit_rate
          = roundTo 1
              (((((((groupComps model hist).map fun p => p.2.hits).sum : Nat)) : ℚ)
                  / ((((3 * (groupComps model hist).length : Nat)) : ℚ))) * 100)) := by
  refine ⟨?_, ?_, ?_, ?_⟩
  · show (statsFold model hist).1 = _
    rw [statsFold_eq]
  · show (statsFold model hist).2.1 = _
    rw [statsFold_eq]
  · intro h
    have h0 : (statsFold model hist).2.1 = 0 := h
    show roundTo 1
        (if 0 < (statsFold model hist).2.1
         then ((statsFold model hist).1 : ℚ) / ((statsFold model hist).2.1 : ℚ) * 100 else 0) = 0
    rw [if_neg (by omega), roundTo_eq]
    norm_num
  · intro h
    have h0 : 0 < (statsFold model hist).2.1 := h
    show roundTo 1
        (if 0 < (statsFold model hist).2.1
         then ((statsFold model hist).1 : ℚ) / ((statsFold model hist).2.1 : ℚ) * 100 else 0)
      = _
    rw [if_pos h0, statsFold_eq]

/-- Witness for C8 over a two-day history: five hits in six opportunities is
stored through the positive branch of the rate formula. -/
theorem cumulative_hit_rate_witness :
    (0 < (calculate_model_stats "neural_network"
        [⟨"2025-01-01", [⟨"neural_network", [], 3, 3⟩]⟩,
         ⟨"2025-01-02", [⟨"neural_network", [], 2, 3⟩]⟩]).total_predictions)
    ∧ (calculate_model_stats "neural_network"
        [⟨"2025-01-01", [⟨"neural_network", [], 3, 3⟩]⟩,
         ⟨"2025-01-02", [⟨"neural_network", [], 2, 3⟩]⟩]).hit_rate
        = roundTo 1
            (((((((groupComps "neural_network"
                    [⟨"2025-01-01", [⟨"neural_network", [], 3, 3⟩]⟩,
                     ⟨"2025-01-02", [⟨"neural_network", [], 2, 3⟩]⟩]).map fun p => p.2.hits).sum : Nat)) : ℚ)
                / ((((3 * (groupComps "neural_network"
                    [⟨"2025-01-01", [⟨"neural_network", [], 3, 3⟩]⟩,
                     ⟨"2025-01-02", [⟨"neural_network", [], 2, 3⟩]⟩]).length : Nat)) : ℚ))) * 100) :=
  ⟨by decide,
   (cumulative_hit_rate_eq "neural_network"
      [⟨"2025-01-01", [⟨"neural_network", [], 3, 3⟩]⟩,
       ⟨"2025-01-02", [⟨"neural_network", [], 2, 3⟩]⟩]).2.2.2 (by decide)⟩

/-- Claim C10: with at most one stored comparison per source per day, the
aggregated opportunity total is exactly three times the number of days holding
a comparison for that source, regardless of how many picks those comparisons
actually contain. -/
theorem opportunities_three_per_day (model : String) (hist : List DayResult)
    (h : ∀ r ∈ hist,
      (r.model_comparisons.filter fun c => decide (c.model = model)).length ≤ 1) :
    (calculate_model_stats model hist).total_predictions
      = 3 * (hist.filter fun r =>
          r.model_comparisons.any fun c => decide (c.model = model)).length := by
  have hlen : (groupComps model hist).length
      = (hist.filter fun r =>
          r.model_comparisons.any fun c => decide (c.model = model)).length := by
    induction hist with
    | nil => rfl
    | cons r rs ih =>
      have hr := h r (List.mem_cons_self r rs)
      have hrest := ih fun x hx => h x (List.mem_cons_of_mem r hx)
      rw [groupComps, List.flatMap_cons, List.length_append, List.length_map, List.filter_cons]
      by_cases ha : (r.model_comparisons.any fun c => decide (c.model = model)) = true
      · obtain ⟨x, hx, hpx⟩ := List.any_eq_true.mp ha
        have hpos : 0 < (r.model_comparisons.filter fun c => decide (c.model = model)).length :=
          List.length_pos.mpr fun hnil =>
            (List.filter_eq_nil_iff.mp hnil x hx) hpx
        rw [if_pos ha, List.length_cons, ← groupComps, hrest]
        omega
      · have hnil : (r.model_comparisons.filter fun c => decide (c.model = model)) = [] := by
          rw [List.filter_eq_nil_iff]
          intro a ha2 hpa
          exact ha (List.any_eq_true.mpr ⟨a, ha2, hpa⟩)
        rw [if_neg ha, ← groupComps, hrest, hnil]
        simp
  rw [calculate_model_stats, statsFold_eq]
  show 3 * (groupComps model hist).length = _
  rw [hlen]

/-- Witness for C10: two days, the second day's stored comparison holding only
a single pick, still yield `3 × 2 = 6` opportunities. -/
theorem opportunities_three_per_day_witness :
    (calculate_model_stats "neural_network"
        [⟨"2025-01-01", [⟨"neural_network", [⟨1, "A", "EDM", 0, true⟩], 1, 3⟩]⟩,
         ⟨"2025-01-02", [⟨"neural_network", [], 0, 3⟩]⟩]).total_predictions
      = 3 * (([⟨"2025-01-01", [⟨"neural_network", [⟨1, "A", "EDM", 0, true⟩], 1, 3⟩]⟩,
               ⟨"2025-01-02", [⟨"neural_network", [], 0, 3⟩]⟩] : List DayResult).filter fun r =>
            r.model_comparisons.any fun c => decide (c.model = "neural_network")).length
    ∧ (calculate_model_stats "neural_network"
        [⟨"2025-01-01", [⟨"neural_network", [⟨1, "A", "EDM", 0, true⟩], 1, 3⟩]⟩,
         ⟨"2025-01-02", [⟨"neural_network", [], 0, 3⟩]⟩]).total_predictions = 6 :=
  ⟨opportunities_three_per_day "neural_network"
      [⟨"2025-01-01", [⟨"neural_network", [⟨1, "A", "EDM", 0, true⟩], 1, 3⟩]⟩,
       ⟨"2025-01-02", [⟨"neural_network", [], 0, 3⟩]⟩] (by decide),
   by decide⟩

end NHLPredict
